import Mathlib

/-
Verification of the input-event propagation-policy system: a per-category
store of ordered rule lists and the commit service that pushes the merged
master list to an external host (src/js/actions/policy.js).
-/

namespace Policy

/-- Modelled from the spec: the propagation action of a rule, from the
adapter enum with values ALWAYS_PROPAGATE and NEVER_PROPAGATE (the
adapter module is an external collaborator, not repository code). -/
inductive PolicyAction : Type
  | alwaysPropagate
  | neverPropagate
deriving DecidableEq

/-- Modelled from the spec: the OS event kind of a rule; KEY_DOWN is the
value used by the keydown convenience wrapper. -/
inductive OSEventKind : Type
  | keyDown
  | keyUp
deriving DecidableEq

/-- Modelled from the spec: the modifier set of a keyboard rule. -/
structure Modifiers : Type where
  shift : Bool
  control : Bool
  alt : Bool
  command : Bool
deriving DecidableEq

/-- Modelled from the spec: a key identifier, either a numeric keyCode or
a keyChar. -/
inductive Key : Type
  | code (n : Nat)
  | char (c : Char)
deriving DecidableEq

/-- Modelled from the spec: a single keyboard propagation rule, as built by
new KeyboardEventPolicy(policyAction, eventKind, modifiers, key) in the
model module js/models/eventpolicy, which is not part of the sampled
source. The core never inspects these fields. -/
structure KeyboardEventPolicy : Type where
  policyAction : PolicyAction
  eventKind : OSEventKind
  modifiers : Modifiers
  key : Key
deriving DecidableEq

/-- The two policy categories, PolicyStore.eventKind.KEYBOARD and
PolicyStore.eventKind.POINTER in the source. -/
inductive EventCategory : Type
  | keyboard
  | pointer
deriving DecidableEq

/-- Modelled from the spec: the adapter enum keyboardPropagationMode used
by the startup command. -/
inductive KeyboardPropagationMode : Type
  | alwaysPropagate
  | neverPropagate
deriving DecidableEq

/-- Modelled from the spec: the descriptor passed to
setKeyboardPropagationMode, holding the default mode. -/
structure PolicyDescriptor : Type where
  defaultMode : KeyboardPropagationMode
deriving DecidableEq

/-- An invocation of one of the externally supplied adapter functions.
The world keeps a log of these calls; the state of the external sink is a
function of this log. R is the rule type stored in the lists. -/
inductive ExtCall (R : Type) : Type
  | setKeyboardEventPropagationPolicy (masterPolicyList : List R)
  | setPointerEventPropagationPolicy (masterPolicyList : List R)
  | setKeyboardPropagationMode (descriptor : PolicyDescriptor)
deriving DecidableEq

/-- Modelled from the spec: one category partition of the PolicyStore
(the store module js/stores/policy is not part of the sampled source): a
mapping from ListID to rule list, kept in registration order, together
with the per-category next-ID counter. ListIDs are positive and the
counter only increases. -/
structure CategoryStore (R : Type) : Type where
  nextID : Nat
  lists : List (Nat × List R)
deriving DecidableEq

namespace CategoryStore

variable {R : Type}

/-- The empty partition: no lists, next ListID is 1. -/
def empty : CategoryStore R := ⟨1, []⟩

/-- Modelled from the spec: addPolicyList allocates the next ID, stores
the rules as a new PolicyList under that ID, and returns the ID. Never
fails; the rules may be empty. -/
def addPolicyList (s : CategoryStore R) (rules : List R) : Nat × CategoryStore R :=
  (s.nextID, ⟨s.nextID + 1, s.lists ++ [(s.nextID, rules)]⟩)

/-- Whether a list with the given ID is currently registered. -/
def containsID (s : CategoryStore R) (id : Nat) : Bool :=
  s.lists.any (fun p => p.1 == id)

/-- Modelled from the spec: removePolicyList removes the list if present
and returns whether it was present; removing a non-existent ID returns
false and leaves the partition unchanged. -/
def removePolicyList (s : CategoryStore R) (id : Nat) : Bool × CategoryStore R :=
  (s.containsID id, ⟨s.nextID, s.lists.filter (fun p => p.1 != id)⟩)

/-- Modelled from the spec: getMasterPolicyList is the concatenation of
all currently registered lists, oldest registration first. -/
def getMasterPolicyList (s : CategoryStore R) : List R :=
  (s.lists.map Prod.snd).flatten

/-- Well-formedness of a partition: every registered ListID is below the
next-ID counter (true of every store reachable from the empty one). -/
def WF (s : CategoryStore R) : Prop :=
  ∀ p ∈ s.lists, p.1 < s.nextID

instance (s : CategoryStore R) : Decidable s.WF :=
  inferInstanceAs (Decidable (∀ p ∈ s.lists, p.1 < s.nextID))

end CategoryStore

/-- Modelled from the spec: the whole PolicyStore, one partition per
category. -/
structure PolicyStore (R : Type) : Type where
  keyboard : CategoryStore R
  pointer : CategoryStore R
deriving DecidableEq

namespace PolicyStore

variable {R : Type}

/-- The empty store. -/
def empty : PolicyStore R := ⟨CategoryStore.empty, CategoryStore.empty⟩

/-- The partition of a category. -/
def cat (s : PolicyStore R) : EventCategory → CategoryStore R
  | EventCategory.keyboard => s.keyboard
  | EventCategory.pointer => s.pointer

/-- Replace the partition of a category. -/
def setCat (s : PolicyStore R) : EventCategory → CategoryStore R → PolicyStore R
  | EventCategory.keyboard, c => { s with keyboard := c }
  | EventCategory.pointer, c => { s with pointer := c }

/-- Modelled from the spec: addPolicyList on the partition of the given
category. -/
def addPolicyList (s : PolicyStore R) (kind : EventCategory) (rules : List R) :
    Nat × PolicyStore R :=
  let r := (s.cat kind).addPolicyList rules
  (r.1, s.setCat kind r.2)

/-- Modelled from the spec: removePolicyList on the partition of the given
category. -/
def removePolicyList (s : PolicyStore R) (kind : EventCategory) (id : Nat) :
    Bool × PolicyStore R :=
  let r := (s.cat kind).removePolicyList id
  (r.1, s.setCat kind r.2)

/-- Modelled from the spec: the master list of the given category. -/
def getMasterPolicyList (s : PolicyStore R) (kind : EventCategory) : List R :=
  (s.cat kind).getMasterPolicyList

/-- Advance the next-ID counter of one category, leaving all lists alone.
This is the net store effect of a rolled-back add. -/
def bumpNextID (s : PolicyStore R) (kind : EventCategory) : PolicyStore R :=
  s.setCat kind ⟨(s.cat kind).nextID + 1, (s.cat kind).lists⟩

end PolicyStore

/-- Errors produced by the commit service: the not-found error
Error("No policies found for id: " + id) of _removePolicies, or an error
propagated from an external install call. -/
inductive PolicyError (E : Type) : Type
  | noSuchPolicyList (id : Nat)
  | external (e : E)
deriving DecidableEq

/-- The state threaded through the commands: the flux policy store plus
the log of calls made to the external adapter. -/
structure World (R : Type) : Type where
  store : PolicyStore R
  calls : List (ExtCall R)
deriving DecidableEq

/-- A world with an empty store and no external calls yet. -/
def World.empty {R : Type} : World R := ⟨PolicyStore.empty, []⟩

variable {R E : Type}

/-- The commitFn selection of _addPolicies and _removePolicies: keyboard
category uses adapterUI.setKeyboardEventPropagationPolicy, any other
category uses adapterUI.setPointerEventPropagationPolicy. -/
def commitFnCall (kind : EventCategory) (masterPolicyList : List R) : ExtCall R :=
  if kind = EventCategory.keyboard then
    ExtCall.setKeyboardEventPropagationPolicy masterPolicyList
  else
    ExtCall.setPointerEventPropagationPolicy masterPolicyList

/-- The _addPolicies command. The outcome of the external install call is
supplied as the oracle argument install; rollbackThrows says whether the
best-effort removePolicyList in the catch handler itself throws (the
source swallows that exception). -/
def addPolicies (install : Except E Unit) (rollbackThrows : Bool)
    (w : World R) (kind : EventCategory) (policies : List R) :
    Except (PolicyError E) Nat × World R :=
  let r := w.store.addPolicyList kind policies
  let policyListID := r.1
  let store1 := r.2
  let masterPolicyList := store1.getMasterPolicyList kind
  let calls1 := w.calls ++ [commitFnCall kind masterPolicyList]
  match install with
  | Except.ok _ => (Except.ok policyListID, ⟨store1, calls1⟩)
  | Except.error e =>
      let store2 := if rollbackThrows then store1
                    else (store1.removePolicyList kind policyListID).2
      (Except.error (PolicyError.external e), ⟨store2, calls1⟩)

/-- Truthiness of the optional commit argument: only an explicit true
commits; false and undefined do not. -/
def commitTruthy : Option Bool → Bool
  | some true => true
  | _ => false

/-- The _removePolicies command. The install oracle gives the outcome of
the external call, used only on the committing path. -/
def removePolicies (install : Except E Unit) (w : World R)
    (kind : EventCategory) (id : Nat) (commit : Option Bool) :
    Except (PolicyError E) Unit × World R :=
  let r := w.store.removePolicyList kind id
  if r.1 then
    if commitTruthy commit then
      let masterPolicyList := r.2.getMasterPolicyList kind
      let calls1 := w.calls ++ [commitFnCall kind masterPolicyList]
      match install with
      | Except.ok _ => (Except.ok (), ⟨r.2, calls1⟩)
      | Except.error e => (Except.error (PolicyError.external e), ⟨r.2, calls1⟩)
    else
      (Except.ok (), { w with store := r.2 })
  else
    (Except.error (PolicyError.noSuchPolicyList id), { w with store := r.2 })

/-- addKeyboardPoliciesCommand: _addPolicies at the keyboard category. -/
def addKeyboardPoliciesCommand (install : Except E Unit) (rollbackThrows : Bool)
    (w : World R) (policies : List R) : Except (PolicyError E) Nat × World R :=
  addPolicies install rollbackThrows w EventCategory.keyboard policies

/-- addPointerPoliciesCommand: _addPolicies at the pointer category. -/
def addPointerPoliciesCommand (install : Except E Unit) (rollbackThrows : Bool)
    (w : World R) (policies : List R) : Except (PolicyError E) Nat × World R :=
  addPolicies install rollbackThrows w EventCategory.pointer policies

/-- removeKeyboardPoliciesCommand: _removePolicies at the keyboard
category, the optional commit flag passed through. -/
def removeKeyboardPoliciesCommand (install : Except E Unit) (w : World R)
    (id : Nat) (commit : Option Bool) : Except (PolicyError E) Unit × World R :=
  removePolicies install w EventCategory.keyboard id commit

/-- removePointerPoliciesCommand: _removePolicies at the pointer category,
the optional commit flag passed through. -/
def removePointerPoliciesCommand (install : Except E Unit) (w : World R)
    (id : Nat) (commit : Option Bool) : Except (PolicyError E) Unit × World R :=
  removePolicies install w EventCategory.pointer id commit

/-- addKeydownPolicyCommand: build the one keydown rule and delegate to
addKeyboardPolicies. -/
def addKeydownPolicyCommand (install : Except E Unit) (rollbackThrows : Bool)
    (w : World KeyboardEventPolicy) (propagate : Bool) (key : Key)
    (modifiers : Modifiers) : Except (PolicyError E) Nat × World KeyboardEventPolicy :=
  let policyAction := if propagate then PolicyAction.alwaysPropagate
                      else PolicyAction.neverPropagate
  let eventKind := OSEventKind.keyDown
  let policy : KeyboardEventPolicy := ⟨policyAction, eventKind, modifiers, key⟩
  addKeyboardPoliciesCommand install rollbackThrows w [policy]

/-- beforeStartupCommand: set the default keyboard propagation mode to
NEVER_PROPAGATE via the adapter; the external result is returned as is. -/
def beforeStartupCommand (res : Except E Unit) (w : World R) :
    Except E Unit × World R :=
  let policyMode := KeyboardPropagationMode.neverPropagate
  let policyDescriptor : PolicyDescriptor := ⟨policyMode⟩
  (res, { w with calls := w.calls ++ [ExtCall.setKeyboardPropagationMode policyDescriptor] })

/-- One store-level operation on a single category partition. -/
inductive StoreOp (R : Type) : Type
  | add (rules : List R)
  | remove (id : Nat)
deriving DecidableEq

/-- Apply one store-level operation to a category partition. -/
def CategoryStore.applyOp (s : CategoryStore R) : StoreOp R → CategoryStore R
  | StoreOp.add rules => (s.addPolicyList rules).2
  | StoreOp.remove id => (s.removePolicyList id).2

/-- Apply a sequence of store-level operations, oldest first. -/
def CategoryStore.applyOps : CategoryStore R → List (StoreOp R) → CategoryStore R
  | s, [] => s
  | s, op :: rest => (s.applyOp op).applyOps rest

/-- Whether an operation is the removal of the list with ID n. -/
def removesID (n : Nat) : StoreOp R → Bool
  | StoreOp.remove m => n == m
  | StoreOp.add _ => false

/-- Stated from the words of the spec, to be compared with the store:
walking the operations with the next fresh ID starting at n, each add
registers its rules under the next ID, and a registered list survives
exactly when no later operation removes its ID; survivors are listed
oldest registration first. -/
def survivingEntries : List (StoreOp R) → Nat → List (Nat × List R)
  | [], _ => []
  | StoreOp.add rules :: rest, n =>
      (if rest.any (removesID n) then [] else [(n, rules)]) ++
        survivingEntries rest (n + 1)
  | StoreOp.remove _ :: rest, n => survivingEntries rest n

/-- A small concrete world used to instantiate the theorems below: two
keyboard lists with IDs 1 and 2, one pointer list with ID 1. -/
def sampleWorld : World Nat :=
  ⟨⟨⟨3, [(1, [10]), (2, [20])]⟩, ⟨2, [(1, [5])]⟩⟩, []⟩

/- Helper lemmas about the store. -/

theorem PolicyStore.cat_setCat_same (s : PolicyStore R) (k : EventCategory)
    (c : CategoryStore R) : (s.setCat k c).cat k = c := by
  cases k <;> rfl

attribute [simp] PolicyStore.cat_setCat_same

theorem PolicyStore.setCat_setCat (s : PolicyStore R) (k : EventCategory)
    (c d : CategoryStore R) : (s.setCat k c).setCat k d = s.setCat k d := by
  cases k <;> rfl

attribute [simp] PolicyStore.setCat_setCat

theorem PolicyStore.setCat_cat (s : PolicyStore R) (k : EventCategory) :
    s.setCat k (s.cat k) = s := by
  cases k <;> rfl

/-- Adding a list appends its rules at the end of the master list of its
category. -/
theorem PolicyStore.getMasterPolicyList_addPolicyList (s : PolicyStore R)
    (kind : EventCategory) (rules : List R) :
    (s.addPolicyList kind rules).2.getMasterPolicyList kind =
      s.getMasterPolicyList kind ++ rules := by
  simp [PolicyStore.addPolicyList, PolicyStore.getMasterPolicyList,
        CategoryStore.addPolicyList, CategoryStore.getMasterPolicyList]

/-- Removing an ID that is not registered leaves the store unchanged. -/
theorem PolicyStore.removePolicyList_absent (s : PolicyStore R)
    (kind : EventCategory) (id : Nat)
    (h : (s.cat kind).containsID id = false) :
    (s.removePolicyList kind id).2 = s := by
  have hall : ∀ p ∈ (s.cat kind).lists, (p.1 != id) = true := by
    intro p hp
    have := List.any_eq_false.mp h p hp
    simpa [bne] using this
  show s.setCat kind ⟨(s.cat kind).nextID,
      (s.cat kind).lists.filter (fun p => p.1 != id)⟩ = s
  rw [List.filter_eq_self.mpr hall]
  exact s.setCat_cat kind

/-- Behavior of removePolicies when the ID is registered. -/
theorem removePolicies_eq_present (install : Except E Unit) (w : World R)
    (kind : EventCategory) (id : Nat) (commit : Option Bool)
    (h : (w.store.cat kind).containsID id = true) :
    removePolicies install w kind id commit =
      if commitTruthy commit then
        (install.mapError PolicyError.external,
         ⟨(w.store.removePolicyList kind id).2,
          w.calls ++ [commitFnCall kind
            ((w.store.removePolicyList kind id).2.getMasterPolicyList kind)]⟩)
      else
        (Except.ok (), { w with store := (w.store.removePolicyList kind id).2 }) := by
  have h1 : (w.store.removePolicyList kind id).1 = true := h
  rw [removePolicies, if_pos h1]
  by_cases hc : commitTruthy commit = true
  · rw [if_pos hc, if_pos hc]
    cases install <;> rfl
  · rw [if_neg hc, if_neg hc]

/-- Behavior of removePolicies when the ID is not registered. -/
theorem removePolicies_eq_absent (install : Except E Unit) (w : World R)
    (kind : EventCategory) (id : Nat) (commit : Option Bool)
    (h : (w.store.cat kind).containsID id = false) :
    removePolicies install w kind id commit =
      (Except.error (PolicyError.noSuchPolicyList id), w) := by
  have h1 : ¬ (w.store.removePolicyList kind id).1 = true := by
    show ¬ (w.store.cat kind).containsID id = true
    simp [h]
  rw [removePolicies, if_neg h1, PolicyStore.removePolicyList_absent w.store kind id h]

/-- Claim C3: a successful addPolicies first registers the rules in the
store, then pushes the master list computed after that registration (the
previous master followed by the new rules), and resolves with exactly the
ListID allocated by the registration. -/
theorem addPolicies_success_spec (rollbackThrows : Bool) (w : World R)
    (kind : EventCategory) (policies : List R) :
    (addPolicies (Except.ok () : Except E Unit) rollbackThrows w kind policies).1 =
      Except.ok ((w.store.addPolicyList kind policies).1) ∧
    (addPolicies (Except.ok () : Except E Unit) rollbackThrows w kind policies).2.store =
      (w.store.addPolicyList kind policies).2 ∧
    (addPolicies (Except.ok () : Except E Unit) rollbackThrows w kind policies).2.calls =
      w.calls ++ [commitFnCall kind (w.store.getMasterPolicyList kind ++ policies)] := by
  refine ⟨rfl, rfl, ?_⟩
  show w.calls ++ [commitFnCall kind
      ((w.store.addPolicyList kind policies).2.getMasterPolicyList kind)] = _
  rw [PolicyStore.getMasterPolicyList_addPolicyList]

/-- Claim C7: the category selects the external install function. The
keyboard category always commits through
setKeyboardEventPropagationPolicy and the pointer category through
setPointerEventPropagationPolicy, both in addPolicies and in a committing
removePolicies, and the calls appended by those operations are exactly
the one produced by that selection. -/
theorem category_selects_install_fn (install : Except E Unit)
    (rollbackThrows : Bool) (w : World R) (kind : EventCategory)
    (policies : List R) (id : Nat) :
    (∀ m : List R, commitFnCall EventCategory.keyboard m =
        ExtCall.setKeyboardEventPropagationPolicy m) ∧
    (∀ m : List R, commitFnCall EventCategory.pointer m =
        ExtCall.setPointerEventPropagationPolicy m) ∧
    (addPolicies install rollbackThrows w kind policies).2.calls =
      w.calls ++ [commitFnCall kind
        ((w.store.addPolicyList kind policies).2.getMasterPolicyList kind)] ∧
    (removePolicies install w kind id (some true)).2.calls =
      w.calls ++ (if (w.store.cat kind).containsID id then
        [commitFnCall kind
          ((w.store.removePolicyList kind id).2.getMasterPolicyList kind)]
      else []) := by
  refine ⟨fun m => rfl, fun m => by simp [commitFnCall], ?_, ?_⟩
  · cases install <;> rfl
  · by_cases h : (w.store.cat kind).containsID id = true
    · rw [if_pos h, removePolicies_eq_present install w kind id (some true) h]
      rfl
    · rw [if_neg h, List.append_nil,
        removePolicies_eq_absent install w kind id (some true)
          (Bool.eq_false_iff.mpr h)]

/-- A removed ID is no longer registered in its category partition. -/
theorem CategoryStore.containsID_removePolicyList (s : CategoryStore R) (id : Nat) :
    ((s.removePolicyList id).2).containsID id = false := by
  simp only [CategoryStore.removePolicyList, CategoryStore.containsID,
    List.any_eq_false]
  intro p hp
  have := (List.mem_filter.mp hp).2
  simp only [bne_iff_ne, ne_eq] at this
  simp [this]

/-- A removed ID is no longer registered in the whole store. -/
theorem PolicyStore.removed_id_not_registered (s : PolicyStore R)
    (kind : EventCategory) (id : Nat) :
    (((s.removePolicyList kind id).2).cat kind).containsID id = false := by
  simp only [PolicyStore.removePolicyList, PolicyStore.cat_setCat_same]
  exact CategoryStore.containsID_removePolicyList (s.cat kind) id

/-- Claim C4: removing an ID that is not registered in the category
partition fails with the no-such-policy-list error identifying the ID,
makes no external call, and leaves the store unchanged, whatever the
commit flag is. -/
theorem removePolicies_unknown_id (install : Except E Unit) (w : World R)
    (kind : EventCategory) (id : Nat) (commit : Option Bool)
    (h : (w.store.cat kind).containsID id = false) :
    removePolicies install w kind id commit =
      (Except.error (PolicyError.noSuchPolicyList id), w) :=
  removePolicies_eq_absent install w kind id commit h

/-- Claim C5: a committing removePolicies on a registered ID removes the
list, pushes the master list recomputed from the post-removal store, and
propagates an install failure directly to the caller; the removed list is
not re-inserted, so it is still absent from the store afterwards. -/
theorem removePolicies_commit_failure (e : E) (w : World R)
    (kind : EventCategory) (id : Nat)
    (h : (w.store.cat kind).containsID id = true) :
    removePolicies (Except.error e) w kind id (some true) =
      (Except.error (PolicyError.external e),
       ⟨(w.store.removePolicyList kind id).2,
        w.calls ++ [commitFnCall kind
          ((w.store.removePolicyList kind id).2.getMasterPolicyList kind)]⟩) ∧
    (((removePolicies (Except.error e) w kind id (some true)).2.store.cat
        kind).containsID id) = false := by
  have h1 := removePolicies_eq_present (Except.error e) w kind id (some true) h
  constructor
  · exact h1.trans rfl
  · rw [h1]
    exact PolicyStore.removed_id_not_registered w.store kind id

/-- Claim C6: a non-committing removePolicies on a registered ID removes
the list from the local store, succeeds, and makes no external call. -/
theorem removePolicies_local_only (install : Except E Unit) (w : World R)
    (kind : EventCategory) (id : Nat)
    (h : (w.store.cat kind).containsID id = true) :
    removePolicies install w kind id (some false) =
      (Except.ok (), ⟨(w.store.removePolicyList kind id).2, w.calls⟩) ∧
    (((removePolicies install w kind id (some false)).2.store.cat
        kind).containsID id) = false := by
  have h1 := removePolicies_eq_present install w kind id (some false) h
  constructor
  · exact h1.trans rfl
  · rw [h1]
    exact PolicyStore.removed_id_not_registered w.store kind id

/-- Claim C1 (amended): when the external install of addPolicies fails,
the operation fails with the original error wrapped as the external
error, whether or not the best-effort rollback removal throws; when the
rollback removal succeeds, the store returns to its pre-call policy
lists, the only difference being the advanced next-ID counter, so the
master list is also restored; when the rollback removal throws, the
freshly added list is left in the store and the error is still the
original install error. -/
theorem addPolicies_install_failure (e : E) (w : World R)
    (kind : EventCategory) (policies : List R)
    (h : CategoryStore.WF (w.store.cat kind)) :
    (addPolicies (Except.error e) false w kind policies).1 =
      Except.error (PolicyError.external e) ∧
    (addPolicies (Except.error e) true w kind policies).1 =
      Except.error (PolicyError.external e) ∧
    (addPolicies (Except.error e) false w kind policies).2.store =
      w.store.bumpNextID kind ∧
    (addPolicies (Except.error e) false w kind policies).2.store.getMasterPolicyList
        kind = w.store.getMasterPolicyList kind ∧
    (addPolicies (Except.error e) true w kind policies).2.store =
      (w.store.addPolicyList kind policies).2 := by
  have hn : ∀ p ∈ (w.store.cat kind).lists,
      (p.1 != (w.store.cat kind).nextID) = true := by
    intro p hp
    have hlt := h p hp
    simp only [bne_iff_ne, ne_eq]
    omega
  have hstore : (addPolicies (Except.error e) false w kind policies).2.store =
      w.store.bumpNextID kind := by
    show ((w.store.addPolicyList kind policies).2.removePolicyList kind
        (w.store.addPolicyList kind policies).1).2 = w.store.bumpNextID kind
    simp only [PolicyStore.addPolicyList, PolicyStore.removePolicyList,
      CategoryStore.addPolicyList, CategoryStore.removePolicyList,
      PolicyStore.cat_setCat_same, PolicyStore.setCat_setCat,
      PolicyStore.bumpNextID]
    rw [List.filter_append, List.filter_eq_self.mpr hn]
    simp
  refine ⟨rfl, rfl, hstore, ?_, rfl⟩
  rw [hstore]
  show ((w.store.bumpNextID kind).cat kind).getMasterPolicyList =
    (w.store.cat kind).getMasterPolicyList
  simp [PolicyStore.bumpNextID, CategoryStore.getMasterPolicyList]

/-- Claim C8: addKeydownPolicy builds exactly one keyboard rule, with
action ALWAYS_PROPAGATE when propagate is true and NEVER_PROPAGATE when
it is false, event kind KEY_DOWN, and the given key and modifiers, and
delegates that singleton list to addKeyboardPolicies, resolving with the
ListID the delegation returns. -/
theorem addKeydownPolicy_single_rule (install : Except E Unit)
    (rollbackThrows : Bool) (w : World KeyboardEventPolicy)
    (propagate : Bool) (key : Key) (modifiers : Modifiers) :
    addKeydownPolicyCommand install rollbackThrows w propagate key modifiers =
      addKeyboardPoliciesCommand install rollbackThrows w
        [⟨if propagate then PolicyAction.alwaysPropagate
          else PolicyAction.neverPropagate,
          OSEventKind.keyDown, modifiers, key⟩] ∧
    (addKeydownPolicyCommand (Except.ok () : Except E Unit) rollbackThrows
        w propagate key modifiers).1 =
      Except.ok ((w.store.cat EventCategory.keyboard).nextID) :=
  ⟨rfl, rfl⟩

/-- Claim C9: beforeStartup performs exactly one external call, passing
the descriptor whose default mode is NEVER_PROPAGATE to
setKeyboardPropagationMode; it mutates no store state, installs no list,
and returns the external result unchanged. -/
theorem beforeStartup_sets_default_mode (res : Except E Unit) (w : World R) :
    beforeStartupCommand res w =
      (res, ⟨w.store, w.calls ++ [ExtCall.setKeyboardPropagationMode
        ⟨KeyboardPropagationMode.neverPropagate⟩]⟩) :=
  rfl

/-- Claim C10: omitting the optional commit argument of
removeKeyboardPolicies or removePointerPolicies behaves identically to
passing commit = false. -/
theorem remove_undefined_commit_eq_false (install : Except E Unit)
    (w : World R) (id : Nat) :
    removeKeyboardPoliciesCommand install w id none =
      removeKeyboardPoliciesCommand install w id (some false) ∧
    removePointerPoliciesCommand install w id none =
      removePointerPoliciesCommand install w id (some false) :=
  ⟨rfl, rfl⟩

/-- The lists held after a sequence of operations: the starting lists
that no operation removes, followed by the surviving entries of the
operations themselves. -/
theorem CategoryStore.applyOps_lists (ops : List (StoreOp R)) (s : CategoryStore R) :
    (s.applyOps ops).lists =
      s.lists.filter (fun p => !(ops.any (removesID p.1))) ++
        survivingEntries ops s.nextID := by
  induction ops generalizing s with
  | nil => simp [CategoryStore.applyOps, survivingEntries]
  | cons op rest ih =>
    cases op with
    | add rules =>
      show (((s.addPolicyList rules).2).applyOps rest).lists = _
      rw [ih]
      simp only [CategoryStore.addPolicyList, survivingEntries]
      rw [List.filter_append]
      have hsingle : [(s.nextID, rules)].filter
          (fun p => !(rest.any (removesID p.1))) =
          (if rest.any (removesID s.nextID) then [] else [(s.nextID, rules)]) := by
        by_cases hb : rest.any (removesID s.nextID) = true
        · simp [List.filter, hb]
        · simp only [Bool.not_eq_true] at hb
          simp [List.filter, hb]
      rw [hsingle, List.append_assoc]
      congr 1
    | remove m =>
      show (((s.removePolicyList m).2).applyOps rest).lists = _
      rw [ih]
      simp only [CategoryStore.removePolicyList, survivingEntries]
      congr 1
      rw [List.filter_filter]
      refine List.filter_congr (fun p _ => ?_)
      simp [removesID, bne, Bool.not_or, Bool.and_comm]

/-- Every surviving entry carries an ID at least the starting counter. -/
theorem survivingEntries_le (ops : List (StoreOp R)) (n : Nat) :
    ∀ p ∈ survivingEntries ops n, n ≤ p.1 := by
  induction ops generalizing n with
  | nil => simp [survivingEntries]
  | cons op rest ih =>
    cases op with
    | add rules =>
      intro p hp
      simp only [survivingEntries, List.mem_append] at hp
      cases hp with
      | inl h1 =>
        by_cases hb : rest.any (removesID n) = true
        · rw [if_pos hb] at h1
          simp at h1
        · rw [if_neg hb] at h1
          simp only [List.mem_singleton] at h1
          subst h1
          exact Nat.le_refl n
      | inr h2 => exact Nat.le_of_succ_le (ih (n + 1) p h2)
    | remove m =>
      intro p hp
      simp only [survivingEntries] at hp
      exact ih n p hp

/-- The surviving entries are strictly ascending in ListID. -/
theorem survivingEntries_pairwise (ops : List (StoreOp R)) (n : Nat) :
    List.Pairwise (fun p q => p.1 < q.1) (survivingEntries ops n) := by
  induction ops generalizing n with
  | nil => simp [survivingEntries]
  | cons op rest ih =>
    cases op with
    | add rules =>
      show List.Pairwise _ ((if rest.any (removesID n) then []
        else [(n, rules)]) ++ survivingEntries rest (n + 1))
      by_cases hb : rest.any (removesID n) = true
      · rw [if_pos hb]
        simpa using ih (n + 1)
      · rw [if_neg hb]
        simp only [List.singleton_append, List.pairwise_cons]
        exact ⟨fun q hq => Nat.lt_of_succ_le (survivingEntries_le rest (n + 1) q hq),
          ih (n + 1)⟩
    | remove m =>
      show List.Pairwise _ (survivingEntries rest n)
      exact ih n

/-- Claim C2: after any sequence of add and remove operations on one
category partition starting from the empty one, the partition holds
exactly the entries added and not later removed, in registration order
with strictly ascending ListIDs; getMasterPolicyList is therefore the
concatenation, in ascending ListID order (oldest registration first), of
the rule sequences of exactly those lists, with the internal order of
each list preserved, and with no stale, missing, or duplicate entries. -/
theorem getMasterPolicyList_characterization (ops : List (StoreOp R)) :
    (CategoryStore.empty.applyOps ops).lists = survivingEntries ops 1 ∧
    (CategoryStore.empty.applyOps ops).getMasterPolicyList =
      ((survivingEntries ops 1).map Prod.snd).flatten ∧
    List.Pairwise (fun p q => p.1 < q.1) (survivingEntries ops 1) := by
  have hl : (CategoryStore.empty.applyOps ops).lists = survivingEntries ops 1 := by
    rw [CategoryStore.applyOps_lists]
    rfl
  exact ⟨hl, by rw [CategoryStore.getMasterPolicyList, hl],
    survivingEntries_pairwise ops 1⟩

/-- Claim C1 counterexample to the claim as stated: with an empty store,
a failed install whose rollback removal succeeds leaves the keyboard
policy lists exactly as before, yet the store is not exactly as it was
before the call, because the next-ID counter has advanced from 1 to 2
(ListIDs are never reused, even after removal). -/
theorem addPolicies_store_not_restored :
    (addPolicies (Except.error ()) false (World.empty : World Nat)
        EventCategory.keyboard [3]).2.store ≠ (World.empty : World Nat).store ∧
    ((addPolicies (Except.error ()) false (World.empty : World Nat)
        EventCategory.keyboard [3]).2.store.cat EventCategory.keyboard).lists =
      ((World.empty : World Nat).store.cat EventCategory.keyboard).lists ∧
    ((addPolicies (Except.error ()) false (World.empty : World Nat)
        EventCategory.keyboard [3]).2.store.cat EventCategory.keyboard).nextID = 2 ∧
    ((World.empty : World Nat).store.cat EventCategory.keyboard).nextID = 1 := by
  decide

/-- Claim C1 witness: the rollback theorem instantiated at a concrete
well-formed world. -/
theorem addPolicies_install_failure_witness :
    CategoryStore.WF (sampleWorld.store.cat EventCategory.keyboard) ∧
    ((addPolicies (Except.error ()) false sampleWorld
        EventCategory.keyboard [7]).1 =
      Except.error (PolicyError.external ()) ∧
    (addPolicies (Except.error ()) true sampleWorld
        EventCategory.keyboard [7]).1 =
      Except.error (PolicyError.external ()) ∧
    (addPolicies (Except.error ()) false sampleWorld
        EventCategory.keyboard [7]).2.store =
      sampleWorld.store.bumpNextID EventCategory.keyboard ∧
    (addPolicies (Except.error ()) false sampleWorld
        EventCategory.keyboard [7]).2.store.getMasterPolicyList
        EventCategory.keyboard =
      sampleWorld.store.getMasterPolicyList EventCategory.keyboard ∧
    (addPolicies (Except.error ()) true sampleWorld
        EventCategory.keyboard [7]).2.store =
      (sampleWorld.store.addPolicyList EventCategory.keyboard [7]).2) :=
  ⟨by decide, addPolicies_install_failure () sampleWorld
    EventCategory.keyboard [7] (by decide)⟩

/-- Claim C4 witness: removing the unknown ID 999 from the keyboard
partition of the sample world. -/
theorem removePolicies_unknown_id_witness :
    (sampleWorld.store.cat EventCategory.keyboard).containsID 999 = false ∧
    removePolicies (Except.ok () : Except Unit Unit) sampleWorld
        EventCategory.keyboard 999 (some true) =
      (Except.error (PolicyError.noSuchPolicyList 999), sampleWorld) :=
  ⟨by decide, removePolicies_unknown_id (Except.ok ()) sampleWorld
    EventCategory.keyboard 999 (some true) (by decide)⟩

/-- Claim C5 witness: a committing remove of pointer list 1 whose push
fails. -/
theorem removePolicies_commit_failure_witness :
    (sampleWorld.store.cat EventCategory.pointer).containsID 1 = true ∧
    (removePolicies (Except.error ()) sampleWorld EventCategory.pointer 1
        (some true) =
      (Except.error (PolicyError.external ()),
       ⟨(sampleWorld.store.removePolicyList EventCategory.pointer 1).2,
        sampleWorld.calls ++ [commitFnCall EventCategory.pointer
          ((sampleWorld.store.removePolicyList EventCategory.pointer
            1).2.getMasterPolicyList EventCategory.pointer)]⟩) ∧
    (((removePolicies (Except.error ()) sampleWorld EventCategory.pointer 1
        (some true)).2.store.cat EventCategory.pointer).containsID 1) = false) :=
  ⟨by decide, removePolicies_commit_failure () sampleWorld
    EventCategory.pointer 1 (by decide)⟩

/-- Claim C6 witness: a non-committing remove of keyboard list 2. -/
theorem removePolicies_local_only_witness :
    (sampleWorld.store.cat EventCategory.keyboard).containsID 2 = true ∧
    (removePolicies (Except.ok () : Except Unit Unit) sampleWorld
        EventCategory.keyboard 2 (some false) =
      (Except.ok (),
       ⟨(sampleWorld.store.removePolicyList EventCategory.keyboard 2).2,
        sampleWorld.calls⟩) ∧
    (((removePolicies (Except.ok () : Except Unit Unit) sampleWorld
        EventCategory.keyboard 2 (some false)).2.store.cat
        EventCategory.keyboard).containsID 2) = false) :=
  ⟨by decide, removePolicies_local_only (Except.ok ()) sampleWorld
    EventCategory.keyboard 2 (by decide)⟩

end Policy
